import Mathlib

/-!
Shallow embedding of the authentication and token-revocation subsystem of the
`agentic-ai` service (files `app/middleware/auth.py`, `app/routes/auth.py`,
`app/config.py`), together with theorems settling the specification's claims
about it.

External collaborators (the Redis store, the `python-jose` JWT library and the
`passlib` bcrypt hasher) are modelled by small Lean types that record exactly
the behaviour the Python code relies on; the repository's own functions
(`hash_password`, `verify_password`, `create_access_token`, `get_current_user`,
`register`, `login`, `logout`) are translated statement by statement.
Time is an integer count of seconds; store TTLs become absolute purge times.
-/

namespace AgenticAI

/-- `ACCESS_TOKEN_EXPIRE_MINUTES` (`app/config.py`): read from the environment
with default `"300"`.  Route-level functions below take the configured value as
an explicit argument `cfg`; this constant is its default. -/
def ACCESS_TOKEN_EXPIRE_MINUTES : Int := 300

/-- `SECRET_KEY` (`app/config.py`): the service's signing key, an opaque
environment-supplied string. -/
def SECRET_KEY : String := "REDIS_SECRET_KEY"

/-- The claim set of a JWT as built by `create_access_token`: an optional
`"sub"` claim and an `"exp"` claim (unix seconds). -/
structure Payload where
  sub : Option String
  exp : Int
deriving DecidableEq, Repr

/-- A bearer-token string, viewed through the JOSE library: either a
structurally malformed string, or a compact serialization of a payload signed
with some key.  Two tokens are the same string exactly when they are equal as
values of this type. -/
inductive Token where
  | malformed (raw : String)
  | signed (key : String) (payload : Payload)
deriving DecidableEq, Repr

/-- `jwt.encode(to_encode, SECRET_KEY, algorithm=ALGORITHM)`: serializes and
signs a payload with the given key. -/
def jwtEncode (key : String) (p : Payload) : Token :=
  Token.signed key p

/-- The two kinds of `JWTError` the code can see from `jwt.decode`:
`invalid` for a malformed structure or a signature mismatch,
`expired` for `ExpiredSignatureError`. -/
inductive JWTError where
  | invalid
  | expired
deriving DecidableEq, Repr

/-- `jwt.decode(token, SECRET_KEY, algorithms=[ALGORITHM])` of the external
JOSE library: parses the structure and verifies the signature (raising on
mismatch or malformed input), then validates the `exp` claim, accepting only a
token whose expiry lies in the future. -/
def jwtDecode (key : String) (now : Int) : Token → Except JWTError Payload
  | .malformed _ => .error .invalid
  | .signed k p =>
      if k ≠ key then .error .invalid
      else if p.exp ≤ now then .error .expired
      else .ok p

/-- The digest a bcrypt hash records.  passlib's bcrypt backend is external to
the repository; its digest is modelled as an injective function of the
plaintext and the embedded salt (spec §4.1: salted one-way hash recomputed
from the embedded parameters at verification time). -/
structure Digest where
  plain : String
  salt : String
deriving DecidableEq, Repr

/-- A stored password-hash string: either a well-formed bcrypt hash record
(scheme prefix, salt and digest) as produced by passlib, or a string passlib
cannot identify as any configured scheme. -/
inductive HashStr where
  | bcrypt (salt : String) (digest : Digest)
  | unrecognized (raw : String)
deriving DecidableEq, Repr

/-- `pwd_context.hash(password)` with its per-call random salt made explicit:
embeds the salt and the digest of the plaintext under that salt. -/
def hash_password (password : String) (salt : String) : HashStr :=
  HashStr.bcrypt salt (Digest.mk password salt)

/-- `pwd_context.verify(plain_password, hashed_password)` of the external
passlib library: for a recognized bcrypt hash, recomputes the digest with the
embedded salt and compares; for a string it cannot identify as a hash of any
configured scheme it raises `UnknownHashError` (a `ValueError`), modelled as
the `error` branch. -/
def cryptContextVerify (plain : String) : HashStr → Except String Bool
  | .bcrypt salt digest => .ok (decide (Digest.mk plain salt = digest))
  | .unrecognized _ => .error "UnknownHashError"

/-- `verify_password` (`app/middleware/auth.py`): returns
`pwd_context.verify(plain_password, hashed_password)` directly, with no
exception handling around the call. -/
def verify_password (plain : String) (hashed : HashStr) : Except String Bool :=
  cryptContextVerify plain hashed

/-- `create_access_token(data, expires_delta)`: copies the data (here the
`"sub"` claim), sets `"exp"` to `now + (expires_delta or timedelta(minutes=15))`
and signs with `SECRET_KEY`.  `expires_delta` is in seconds; Python's `or`
also replaces a zero (falsy) timedelta by the 15-minute default. -/
def create_access_token (now : Int) (sub : String) (expires_delta : Option Int) : Token :=
  let delta : Int :=
    match expires_delta with
    | none => 15 * 60
    | some d => if d = 0 then 15 * 60 else d
  jwtEncode SECRET_KEY (Payload.mk (some sub) (now + delta))

/-- The user record stored under `user:{email}`: the JSON object
`{"email": ..., "password": <hash>}` written by `register`. -/
structure UserData where
  email : String
  password : HashStr
deriving DecidableEq, Repr

/-- The Redis store as the auth code uses it: user records keyed by email
(`user:` namespace) and blacklist markers keyed by the full token string
(`blacklist:` namespace).  A blacklist entry records the absolute time at
which its TTL elapses; Redis serves the key only strictly before that time. -/
structure Store where
  users : String → Option UserData
  blacklist : Token → Option Int

/-- The store with no user records and no blacklist entries. -/
def emptyStore : Store :=
  { users := fun _ => none, blacklist := fun _ => none }

/-- `redis_client.get(f"blacklist:{token}")` at time `now`: truthy exactly when
an entry for this token string exists whose TTL has not yet elapsed. -/
def Store.blacklistGet (st : Store) (now : Int) (token : Token) : Bool :=
  match st.blacklist token with
  | some purge => decide (now < purge)
  | none => false

/-- `redis_client.setex(f"blacklist:{token}", ttl, "1")` at time `now`: writes
(or overwrites) the entry for this token string with absolute purge time
`now + ttl`. -/
def Store.setexBlacklist (st : Store) (now ttl : Int) (token : Token) : Store :=
  { st with blacklist := fun t => if t = token then some (now + ttl) else st.blacklist t }

/-- `redis_client.set(f"user:{email}", json.dumps(user_data))`: writes (or
overwrites) the user record for this email. -/
def Store.setUser (st : Store) (email : String) (u : UserData) : Store :=
  { st with users := fun e => if e = email then some u else st.users e }

/-- The cause of an authentication rejection (spec §4.3 taxonomy).  The code
maps every cause to the same HTTP 401 `"Invalid or expired token"`; the
distinction records which check failed first. -/
inductive Rejection where
  | revoked
  | invalid
  | expired
deriving DecidableEq, Repr

/-- An HTTP error outcome: status code and `detail` message. -/
structure Http where
  status : Nat
  detail : String
deriving DecidableEq, Repr

/-- The `credentials_exception` every rejection cause is mapped to by
`get_current_user`. -/
def credentialsException : Http :=
  Http.mk 401 "Invalid or expired token"

/-- `get_current_user` (`app/middleware/auth.py`), at time `now`, on the
presented token string: first the blacklist lookup, then `jwt.decode`
(signature, then expiry), then extraction of a truthy `"sub"` claim. -/
def get_current_user (st : Store) (now : Int) (token : Token) : Except Rejection String :=
  if st.blacklistGet now token then .error .revoked
  else
    match jwtDecode SECRET_KEY now token with
    | .error .invalid => .error .invalid
    | .error .expired => .error .expired
    | .ok payload =>
        match payload.sub with
        | some email => if email = "" then .error .invalid else .ok email
        | none => .error .invalid

/-- `register` (`app/routes/auth.py`) with the hasher's random salt explicit:
a `get` on `user:{email}`, a 400 `"Email already registered"` if present,
otherwise a separate `set` of the new record.  Returns the HTTP outcome and
the resulting store. -/
def register (st : Store) (salt email password : String) :
    Except Http String × Store :=
  if (st.users email).isSome then
    (.error (Http.mk 400 "Email already registered"), st)
  else
    (.ok "User registered successfully",
     st.setUser email (UserData.mk email (hash_password password salt)))

/-- How a route call can fail: an `HTTPException` deliberately raised by the
route, or an exception of a library call that no handler in the route catches. -/
inductive Failure where
  | http (e : Http)
  | uncaught (msg : String)
deriving DecidableEq, Repr

/-- The success body of `login`: message, access token and token type. -/
structure LoginResponse where
  message : String
  access_token : Token
  token_type : String
deriving DecidableEq, Repr

/-- `login` (`app/routes/auth.py`): `get` of the user record (401
`"Invalid email or password"` if absent), `verify_password` against the stored
hash (same 401 on mismatch; an `UnknownHashError` from passlib would propagate
uncaught), then `create_access_token` with
`expires_delta=timedelta(minutes=ACCESS_TOKEN_EXPIRE_MINUTES)`. -/
def login (cfg : Int) (st : Store) (now : Int) (email password : String) :
    Except Failure LoginResponse :=
  match st.users email with
  | none => .error (.http (Http.mk 401 "Invalid email or password"))
  | some userDict =>
      match verify_password password userDict.password with
      | .error msg => .error (.uncaught msg)
      | .ok false => .error (.http (Http.mk 401 "Invalid email or password"))
      | .ok true =>
          .ok (LoginResponse.mk "User logged in successfully"
                (create_access_token now email (some (cfg * 60))) "bearer")

/-- `logout` (`app/routes/auth.py`): gated by `Depends(get_current_user)` on
the presented token; on success, `setex` of `blacklist:{token}` with TTL
`ACCESS_TOKEN_EXPIRE_MINUTES * 60` seconds and value `"1"`. -/
def logout (cfg : Int) (st : Store) (now : Int) (token : Token) :
    Except Rejection (String × Store) :=
  match get_current_user st now token with
  | .error e => .error e
  | .ok _ => .ok ("Successfully logged out", st.setexBlacklist now (cfg * 60) token)

/-! ### Interleaving model of concurrent `register` calls

`register` performs two store round-trips: a `get` on `user:{email}` and, when
the record is absent, a later separate `set`.  Each round-trip is atomic at the
store, but another request may run between them.  The model below decomposes a
`register` call into those two atomic steps and executes two calls under an
arbitrary interleaving schedule. -/

/-- The arguments of one in-flight `register` call (salt of its hasher call
made explicit). -/
structure RegCall where
  email : String
  password : String
  salt : String
deriving Repr

/-- Progress of one in-flight `register` call: before its `get`, after its
`get` (recording whether the record existed), or finished with its HTTP
outcome. -/
inductive RegPhase where
  | start
  | checked (emailTaken : Bool)
  | done (result : Except Http String)
deriving Repr

/-- One atomic step of an in-flight `register` call: its `get`, then either
the 400 rejection or its `set`. -/
def regStep (c : RegCall) (p : RegPhase) (st : Store) : RegPhase × Store :=
  match p with
  | .start => (.checked (st.users c.email).isSome, st)
  | .checked true => (.done (.error (Http.mk 400 "Email already registered")), st)
  | .checked false =>
      (.done (.ok "User registered successfully"),
       st.setUser c.email (UserData.mk c.email (hash_password c.password c.salt)))
  | .done r => (.done r, st)

/-- The joint state of two in-flight `register` calls over the shared store. -/
structure RaceState where
  phaseA : RegPhase
  phaseB : RegPhase
  store : Store

/-- Run one atomic step of call `a` (when `pickA` is true) or call `b`. -/
def raceStep (a b : RegCall) (s : RaceState) (pickA : Bool) : RaceState :=
  if pickA then
    let (p, st) := regStep a s.phaseA s.store
    RaceState.mk p s.phaseB st
  else
    let (p, st) := regStep b s.phaseB s.store
    RaceState.mk s.phaseA p st

/-- Execute two `register` calls from `st` under the interleaving `sched`
(`true` = a step of call `a`, `false` = a step of call `b`). -/
def runRace (a b : RegCall) (sched : List Bool) (st : Store) : RaceState :=
  sched.foldl (raceStep a b) (RaceState.mk .start .start st)

/-- Sanity: the two steps of one call, run back to back with no interleaving,
compute exactly `register`. -/
theorem regStep_twice_eq_register (c : RegCall) (st : Store) :
    (let (p1, st1) := regStep c .start st
     regStep c p1 st1) =
      ((RegPhase.done (register st c.salt c.email c.password).1),
       (register st c.salt c.email c.password).2) := by
  simp only [regStep, register]
  cases h : (st.users c.email).isSome <;> simp [h]

/-- A demonstration store holding one registered user, `bob@example.com`, whose
password `"pw"` was hashed under salt `"s"`. -/
def bobStore : Store :=
  emptyStore.setUser "bob@example.com" (UserData.mk "bob@example.com" (hash_password "pw" "s"))

/-- Reading the blacklist key just written by `setex` sees the entry exactly
while the written TTL has not elapsed. -/
theorem blacklistGet_setex_self (st : Store) (now w ttl : Int) (token : Token) :
    (st.setexBlacklist w ttl token).blacklistGet now token = decide (now < w + ttl) := by
  simp [Store.setexBlacklist, Store.blacklistGet]

/-! ### Claims -/

/-- C9: hash-then-verify round-trips — `verify(p, hash(p))` is true — and for
distinct plaintexts `p1 ≠ p2`, `verify(p1, hash(p2))` is false (for every salt
the hasher may draw). -/
theorem C9_hash_verify (p1 p2 salt : String) (hne : p1 ≠ p2) :
    verify_password p1 (hash_password p1 salt) = .ok true ∧
    verify_password p1 (hash_password p2 salt) = .ok false := by
  constructor
  · simp [verify_password, cryptContextVerify, hash_password]
  · simp [verify_password, cryptContextVerify, hash_password, Digest.mk.injEq, hne]

/-- Witness for C9 at `p1 = "Secret123"`, `p2 = "Other456"`, salt `"s"`. -/
theorem C9_hash_verify_witness :
    ("Secret123" : String) ≠ "Other456" ∧
    (verify_password "Secret123" (hash_password "Secret123" "s") = .ok true ∧
     verify_password "Secret123" (hash_password "Other456" "s") = .ok false) :=
  ⟨by decide, C9_hash_verify "Secret123" "Other456" "s" (by decide)⟩

/-- C7: evaluating `verify_password` at a malformed (non-hash) second argument.
The code calls `pwd_context.verify` with no exception handling, so passlib's
`UnknownHashError` propagates to the caller instead of the call returning
false as the spec requires. -/
theorem C7_verify_password_raises_eval :
    verify_password "anything" (HashStr.unrecognized "totally-not-a-hash") =
      .error "UnknownHashError" := rfl

/-- C6: a failed login — unknown email, or known email with a password that
does not verify — returns the identical outcome, HTTP 401 with detail
`"Invalid email or password"`, in both cases. -/
theorem C6_login_failure_indistinguishable (cfg : Int) (st : Store) (now : Int)
    (e1 p1 e2 p2 : String) (u : UserData)
    (h1 : st.users e1 = none)
    (h2 : st.users e2 = some u)
    (h3 : verify_password p2 u.password = .ok false) :
    login cfg st now e1 p1 = .error (.http (Http.mk 401 "Invalid email or password")) ∧
    login cfg st now e2 p2 = .error (.http (Http.mk 401 "Invalid email or password")) := by
  constructor
  · simp [login, h1]
  · simp [login, h2, h3]

/-- Witness for C6 over `bobStore`: login with the unknown `alice@example.com`
and login as `bob@example.com` with the wrong password produce the same 401. -/
theorem C6_login_failure_indistinguishable_witness :
    bobStore.users "alice@example.com" = none ∧
    bobStore.users "bob@example.com" =
      some (UserData.mk "bob@example.com" (hash_password "pw" "s")) ∧
    verify_password "WrongPass" (hash_password "pw" "s") = .ok false ∧
    (login ACCESS_TOKEN_EXPIRE_MINUTES bobStore 0 "alice@example.com" "AnyPass" =
        .error (.http (Http.mk 401 "Invalid email or password")) ∧
     login ACCESS_TOKEN_EXPIRE_MINUTES bobStore 0 "bob@example.com" "WrongPass" =
        .error (.http (Http.mk 401 "Invalid email or password"))) :=
  ⟨rfl, rfl, rfl,
   C6_login_failure_indistinguishable ACCESS_TOKEN_EXPIRE_MINUTES bobStore 0
     "alice@example.com" "AnyPass" "bob@example.com" "WrongPass"
     (UserData.mk "bob@example.com" (hash_password "pw" "s")) rfl rfl rfl⟩

/-- C5: a second blacklist write of an already-revoked token is idempotent —
`setex` of the same key with the same TTL at the same instant leaves the store
in exactly the state a single revocation produced (one entry under the one
key, same TTL ceiling). -/
theorem C5_revocation_idempotent (st : Store) (now ttl : Int) (token : Token) :
    (st.setexBlacklist now ttl token).setexBlacklist now ttl token =
      st.setexBlacklist now ttl token := by
  unfold Store.setexBlacklist
  congr 1
  funext t
  by_cases h : t = token <;> simp [h]

/-- C10: with `expires_delta=None`, `create_access_token` sets the expiry 15
minutes from now — not the token the configured `ACCESS_TOKEN_EXPIRE_MINUTES`
(default 300) lifetime would produce — and a token issued by `login` carries
the configured lifetime only because `login` passes it explicitly. -/
theorem C10_default_expiry_fifteen_minutes :
    (∀ now sub, create_access_token now sub none =
        Token.signed SECRET_KEY (Payload.mk (some sub) (now + 15 * 60))) ∧
    (∀ now sub, create_access_token now sub none ≠
        create_access_token now sub (some (ACCESS_TOKEN_EXPIRE_MINUTES * 60))) ∧
    (∀ cfg st now email password resp,
        login cfg st now email password = .ok resp →
          resp.access_token = create_access_token now email (some (cfg * 60))) := by
  refine ⟨fun now sub => rfl, fun now sub => ?_, ?_⟩
  · simp only [create_access_token, jwtEncode, ACCESS_TOKEN_EXPIRE_MINUTES]
    norm_num
  · intro cfg st now email password resp h
    unfold login at h
    cases hu : st.users email with
    | none => rw [hu] at h; exact absurd h (by simp)
    | some u =>
        rw [hu] at h
        dsimp only at h
        cases hv : verify_password password u.password with
        | error m => rw [hv] at h; exact absurd h (by simp)
        | ok b =>
            rw [hv] at h
            cases b
            · exact absurd h (by simp)
            · injection h with h
              subst h
              rfl

/-- Witness for C10: concrete default-expiry token at `now = 0` and a concrete
successful login of `bob@example.com` against `bobStore`. -/
theorem C10_default_expiry_fifteen_minutes_witness :
    create_access_token 0 "bob@example.com" none =
      Token.signed SECRET_KEY (Payload.mk (some "bob@example.com") (0 + 15 * 60)) ∧
    create_access_token 0 "bob@example.com" none ≠
      create_access_token 0 "bob@example.com" (some (ACCESS_TOKEN_EXPIRE_MINUTES * 60)) ∧
    (LoginResponse.mk "User logged in successfully"
        (create_access_token 0 "bob@example.com" (some (ACCESS_TOKEN_EXPIRE_MINUTES * 60)))
        "bearer").access_token =
      create_access_token 0 "bob@example.com" (some (ACCESS_TOKEN_EXPIRE_MINUTES * 60)) :=
  ⟨C10_default_expiry_fifteen_minutes.1 0 "bob@example.com",
   C10_default_expiry_fifteen_minutes.2.1 0 "bob@example.com",
   C10_default_expiry_fifteen_minutes.2.2 ACCESS_TOKEN_EXPIRE_MINUTES bobStore 0
     "bob@example.com" "pw" _ rfl⟩

/-- C4: the rejection checks of `get_current_user` fire in the order
blacklist lookup, signature/structure, expiry, subject: a blacklisted token is
`Revoked` whatever else is wrong with it; an unblacklisted malformed or
wrongly-signed token is `Invalid` even if it is also expired; a well-signed
expired token is `Expired` even if its subject is also missing; and a
well-signed unexpired token with an absent or empty subject is `Invalid`. -/
theorem C4_rejection_order :
    (∀ st now token, st.blacklistGet now token = true →
        get_current_user st now token = .error .revoked) ∧
    (∀ st now raw, st.blacklistGet now (Token.malformed raw) = false →
        get_current_user st now (Token.malformed raw) = .error .invalid) ∧
    (∀ st now k p, st.blacklistGet now (Token.signed k p) = false → k ≠ SECRET_KEY →
        get_current_user st now (Token.signed k p) = .error .invalid) ∧
    (∀ st now p, st.blacklistGet now (Token.signed SECRET_KEY p) = false → p.exp ≤ now →
        get_current_user st now (Token.signed SECRET_KEY p) = .error .expired) ∧
    (∀ st now p, st.blacklistGet now (Token.signed SECRET_KEY p) = false → now < p.exp →
        (p.sub = none ∨ p.sub = some "") →
        get_current_user st now (Token.signed SECRET_KEY p) = .error .invalid) := by
  refine ⟨?_, ?_, ?_, ?_, ?_⟩
  · intro st now token h
    simp [get_current_user, h]
  · intro st now raw h
    simp [get_current_user, h, jwtDecode]
  · intro st now k p h hk
    simp [get_current_user, h, jwtDecode, hk]
  · intro st now p h hexp
    simp [get_current_user, h, jwtDecode, hexp]
  · intro st now p h hlt hsub
    rcases hsub with hs | hs <;>
      simp [get_current_user, h, jwtDecode, hs, not_le.mpr hlt]

/-- Witness for C4: one concrete token per clause — a blacklisted malformed
token is `Revoked`; the same malformed token unblacklisted is `Invalid`; a
wrongly-signed and already-expired token is `Invalid` (signature before
expiry); a well-signed, expired, subject-less token is `Expired` (expiry
before subject); a well-signed live token with empty subject is `Invalid`. -/
theorem C4_rejection_order_witness :
    ((emptyStore.setexBlacklist 0 100 (Token.malformed "junk")).blacklistGet 0
        (Token.malformed "junk") = true ∧
      get_current_user (emptyStore.setexBlacklist 0 100 (Token.malformed "junk")) 0
        (Token.malformed "junk") = .error .revoked) ∧
    (emptyStore.blacklistGet 0 (Token.malformed "junk") = false ∧
      get_current_user emptyStore 0 (Token.malformed "junk") = .error .invalid) ∧
    (emptyStore.blacklistGet 5 (Token.signed "wrong-key" (Payload.mk (some "a") 0)) = false ∧
      "wrong-key" ≠ SECRET_KEY ∧
      get_current_user emptyStore 5 (Token.signed "wrong-key" (Payload.mk (some "a") 0)) =
        .error .invalid) ∧
    (emptyStore.blacklistGet 5 (Token.signed SECRET_KEY (Payload.mk none 0)) = false ∧
      (Payload.mk (none : Option String) 0).exp ≤ 5 ∧
      get_current_user emptyStore 5 (Token.signed SECRET_KEY (Payload.mk none 0)) =
        .error .expired) ∧
    (emptyStore.blacklistGet 0 (Token.signed SECRET_KEY (Payload.mk (some "") 100)) = false ∧
      (0 : Int) < (Payload.mk (some "") 100).exp ∧
      get_current_user emptyStore 0 (Token.signed SECRET_KEY (Payload.mk (some "") 100)) =
        .error .invalid) :=
  ⟨⟨rfl, C4_rejection_order.1 _ 0 _ rfl⟩,
   ⟨rfl, C4_rejection_order.2.1 emptyStore 0 "junk" rfl⟩,
   ⟨rfl, by decide, C4_rejection_order.2.2.1 emptyStore 5 "wrong-key" _ rfl (by decide)⟩,
   ⟨rfl, by decide, C4_rejection_order.2.2.2.1 emptyStore 5 _ rfl (by decide)⟩,
   ⟨rfl, by decide, C4_rejection_order.2.2.2.2 emptyStore 0 _ rfl (by decide) (Or.inr rfl)⟩⟩

/-- C2 counterexample: this token is signed with the service's key, its
encoded expiry (100) is strictly in the future of `now = 0`, and the store
holds no revocation entry for it, yet `get_current_user` rejects it — its
payload carries no subject claim, a case the claim's iff omits. -/
theorem C2_authenticate_iff_counterexample :
    jwtDecode SECRET_KEY 0 (Token.signed SECRET_KEY (Payload.mk none 100)) =
      .ok (Payload.mk none 100) ∧
    emptyStore.blacklistGet 0 (Token.signed SECRET_KEY (Payload.mk none 100)) = false ∧
    get_current_user emptyStore 0 (Token.signed SECRET_KEY (Payload.mk none 100)) =
      .error .invalid :=
  ⟨rfl, rfl, rfl⟩

/-- C2 amended: `get_current_user` returns subject `s` iff the token is signed
with the service's key, its encoded expiry is strictly in the future, no live
revocation entry exists for its exact string, and its payload carries the
nonempty subject claim `s`. -/
theorem C2_authenticate_iff_amended (st : Store) (now : Int) (token : Token) (s : String) :
    get_current_user st now token = .ok s ↔
      st.blacklistGet now token = false ∧
      (∃ e : Int, token = Token.signed SECRET_KEY (Payload.mk (some s) e) ∧ now < e) ∧
      s ≠ "" := by
  constructor
  · intro h
    unfold get_current_user at h
    cases hbl : st.blacklistGet now token with
    | true => rw [hbl] at h; simp at h
    | false =>
      rw [hbl] at h
      simp only [Bool.false_eq_true, if_false] at h
      cases token with
      | malformed raw => simp [jwtDecode] at h
      | signed k p =>
        obtain ⟨psub, pexp⟩ := p
        by_cases hk : k = SECRET_KEY
        · subst hk
          by_cases hexp : pexp ≤ now
          · simp [jwtDecode, hexp] at h
          · simp only [jwtDecode, ne_eq, not_true_eq_false, if_false, if_neg hexp] at h
            cases psub with
            | none => simp at h
            | some email =>
              by_cases he : email = ""
              · simp [he] at h
              · simp only [if_neg he] at h
                injection h with h
                subst h
                exact ⟨rfl, ⟨pexp, rfl, by omega⟩, he⟩
        · simp [jwtDecode, hk] at h
  · rintro ⟨hbl, ⟨e, rfl, hlt⟩, hs⟩
    simp [get_current_user, hbl, jwtDecode, not_le.mpr hlt, hs]

/-- A first in-flight registration of `alice@example.com`. -/
def aliceFirst : RegCall := RegCall.mk "alice@example.com" "FirstPass1" "saltA"

/-- A second, concurrent registration of the same `alice@example.com`. -/
def aliceSecond : RegCall := RegCall.mk "alice@example.com" "SecondPass2" "saltB"

/-- C8: evaluating two `register` calls for the same email.  Sequentially
(schedule A,A,B,B) exactly one record is created and the second caller gets
the 400 `"Email already registered"`; but under the interleaving
get-A, get-B, set-A, set-B both callers report success and the second `set`
overwrites the record the first call stored — the lost update an atomic
set-if-absent would prevent. -/
theorem C8_register_race_eval :
    (runRace aliceFirst aliceSecond [true, false, true, false] emptyStore).phaseA =
        .done (.ok "User registered successfully") ∧
    (runRace aliceFirst aliceSecond [true, false, true, false] emptyStore).phaseB =
        .done (.ok "User registered successfully") ∧
    (runRace aliceFirst aliceSecond [true, false, true, false] emptyStore).store.users
        "alice@example.com" =
      some (UserData.mk "alice@example.com" (hash_password "SecondPass2" "saltB")) ∧
    (runRace aliceFirst aliceSecond [true, true, false, false] emptyStore).phaseB =
        .done (.error (Http.mk 400 "Email already registered")) ∧
    (runRace aliceFirst aliceSecond [true, true, false, false] emptyStore).store.users
        "alice@example.com" =
      some (UserData.mk "alice@example.com" (hash_password "FirstPass1" "saltA")) :=
  ⟨rfl, rfl, rfl, rfl, rfl⟩

/-- C1 counterexample: a token issued by `login` at time 0 under the default
configuration (lifetime 300 minutes, so expiry 18000) is revoked at time
17990, when its remaining lifetime is 10 seconds; `logout` writes the
revocation entry with TTL `ACCESS_TOKEN_EXPIRE_MINUTES * 60` seconds (purge at
`17990 + 18000`), which is not the 10-second remaining lifetime. -/
theorem C1_logout_ttl_counterexample :
    logout ACCESS_TOKEN_EXPIRE_MINUTES emptyStore 17990
        (create_access_token 0 "alice@example.com" (some (ACCESS_TOKEN_EXPIRE_MINUTES * 60))) =
      .ok ("Successfully logged out",
        emptyStore.setexBlacklist 17990 (ACCESS_TOKEN_EXPIRE_MINUTES * 60)
          (create_access_token 0 "alice@example.com"
            (some (ACCESS_TOKEN_EXPIRE_MINUTES * 60)))) ∧
    (emptyStore.setexBlacklist 17990 (ACCESS_TOKEN_EXPIRE_MINUTES * 60)
        (create_access_token 0 "alice@example.com"
          (some (ACCESS_TOKEN_EXPIRE_MINUTES * 60)))).blacklist
        (create_access_token 0 "alice@example.com" (some (ACCESS_TOKEN_EXPIRE_MINUTES * 60))) =
      some (17990 + ACCESS_TOKEN_EXPIRE_MINUTES * 60) ∧
    create_access_token 0 "alice@example.com" (some (ACCESS_TOKEN_EXPIRE_MINUTES * 60)) =
      Token.signed SECRET_KEY
        (Payload.mk (some "alice@example.com") (0 + ACCESS_TOKEN_EXPIRE_MINUTES * 60)) ∧
    (0 + ACCESS_TOKEN_EXPIRE_MINUTES * 60) - 17990 ≠ ACCESS_TOKEN_EXPIRE_MINUTES * 60 :=
  ⟨rfl, rfl, rfl, by decide⟩

/-- C1 amended: the TTL `logout` writes is always the full configured lifetime
`cfg * 60` seconds, independent of the token's remaining lifetime; for a token
issued by `login` under a positive configured lifetime and revoked no earlier
than its issuance, that TTL is never shorter than the remaining lifetime
`exp - r` (the correctness-critical direction), though it can exceed it. -/
theorem C1_logout_ttl_full_lifetime (cfg : Int) (st : Store) (i r : Int) (email s : String)
    (hcfg : 0 < cfg) (hir : i ≤ r)
    (hauth : get_current_user st r (create_access_token i email (some (cfg * 60))) = .ok s) :
    logout cfg st r (create_access_token i email (some (cfg * 60))) =
      .ok ("Successfully logged out",
        st.setexBlacklist r (cfg * 60) (create_access_token i email (some (cfg * 60)))) ∧
    create_access_token i email (some (cfg * 60)) =
      Token.signed SECRET_KEY (Payload.mk (some email) (i + cfg * 60)) ∧
    (i + cfg * 60) - r ≤ cfg * 60 := by
  have h60 : ¬ (cfg * 60 = 0) := by omega
  refine ⟨?_, ?_, by omega⟩
  · unfold logout
    rw [hauth]
  · simp [create_access_token, jwtEncode, h60]

/-- Witness for C1 amended: the default configuration, a token issued at time
0 and revoked at 17990. -/
theorem C1_logout_ttl_full_lifetime_witness :
    (0 : Int) < ACCESS_TOKEN_EXPIRE_MINUTES ∧ (0 : Int) ≤ 17990 ∧
    get_current_user emptyStore 17990
        (create_access_token 0 "alice@example.com" (some (ACCESS_TOKEN_EXPIRE_MINUTES * 60))) =
      .ok "alice@example.com" ∧
    (logout ACCESS_TOKEN_EXPIRE_MINUTES emptyStore 17990
        (create_access_token 0 "alice@example.com" (some (ACCESS_TOKEN_EXPIRE_MINUTES * 60))) =
      .ok ("Successfully logged out",
        emptyStore.setexBlacklist 17990 (ACCESS_TOKEN_EXPIRE_MINUTES * 60)
          (create_access_token 0 "alice@example.com"
            (some (ACCESS_TOKEN_EXPIRE_MINUTES * 60)))) ∧
     create_access_token 0 "alice@example.com" (some (ACCESS_TOKEN_EXPIRE_MINUTES * 60)) =
       Token.signed SECRET_KEY
         (Payload.mk (some "alice@example.com") (0 + ACCESS_TOKEN_EXPIRE_MINUTES * 60)) ∧
     (0 + ACCESS_TOKEN_EXPIRE_MINUTES * 60) - 17990 ≤ ACCESS_TOKEN_EXPIRE_MINUTES * 60) :=
  ⟨by decide, by decide, rfl,
   C1_logout_ttl_full_lifetime ACCESS_TOKEN_EXPIRE_MINUTES emptyStore 0 17990
     "alice@example.com" "alice@example.com" (by decide) (by decide) rfl⟩

/-- C3: for a token issued by `login` (positive configured lifetime) and
successfully revoked at time `r`, every authentication attempt at any later
time rejects: while the revocation entry is live the cause is `revoked`, and
once the entry has self-purged the token's own expiry has already passed, so
the cause is `expired`; at no later time does authentication succeed. -/
theorem C3_revoke_then_authenticate_rejects (cfg : Int) (st : Store) (i r now : Int)
    (email s : String)
    (hcfg : 0 < cfg) (hir : i ≤ r) (_hrn : r ≤ now)
    (hauth : get_current_user st r (create_access_token i email (some (cfg * 60))) = .ok s) :
    logout cfg st r (create_access_token i email (some (cfg * 60))) =
      .ok ("Successfully logged out",
        st.setexBlacklist r (cfg * 60) (create_access_token i email (some (cfg * 60)))) ∧
    ∃ e : Rejection,
      get_current_user
        (st.setexBlacklist r (cfg * 60) (create_access_token i email (some (cfg * 60))))
        now (create_access_token i email (some (cfg * 60))) = .error e := by
  have h60 : ¬ (cfg * 60 = 0) := by omega
  have hform : create_access_token i email (some (cfg * 60)) =
      Token.signed SECRET_KEY (Payload.mk (some email) (i + cfg * 60)) := by
    simp [create_access_token, jwtEncode, h60]
  refine ⟨by unfold logout; rw [hauth], ?_⟩
  cases hbl : (st.setexBlacklist r (cfg * 60)
      (create_access_token i email (some (cfg * 60)))).blacklistGet
      now (create_access_token i email (some (cfg * 60))) with
  | true =>
    refine ⟨.revoked, ?_⟩
    unfold get_current_user
    rw [hbl, if_pos rfl]
  | false =>
    have h2 := hbl
    rw [blacklistGet_setex_self] at h2
    have h3 : ¬ (now < r + cfg * 60) := by simpa using h2
    refine ⟨.expired, ?_⟩
    unfold get_current_user
    rw [hbl, hform]
    have hexp : i + cfg * 60 ≤ now := by omega
    simp [jwtDecode, hexp]

/-- Witness for C3: default configuration, token issued at 0, revoked at
17990, authentication retried at time 200000, after the revocation entry's
purge time 35990. -/
theorem C3_revoke_then_authenticate_rejects_witness :
    (0 : Int) < ACCESS_TOKEN_EXPIRE_MINUTES ∧ (0 : Int) ≤ 17990 ∧
    (17990 : Int) ≤ 200000 ∧
    get_current_user emptyStore 17990
        (create_access_token 0 "alice@example.com" (some (ACCESS_TOKEN_EXPIRE_MINUTES * 60))) =
      .ok "alice@example.com" ∧
    (logout ACCESS_TOKEN_EXPIRE_MINUTES emptyStore 17990
        (create_access_token 0 "alice@example.com" (some (ACCESS_TOKEN_EXPIRE_MINUTES * 60))) =
      .ok ("Successfully logged out",
        emptyStore.setexBlacklist 17990 (ACCESS_TOKEN_EXPIRE_MINUTES * 60)
          (create_access_token 0 "alice@example.com"
            (some (ACCESS_TOKEN_EXPIRE_MINUTES * 60)))) ∧
     ∃ e : Rejection,
       get_current_user
         (emptyStore.setexBlacklist 17990 (ACCESS_TOKEN_EXPIRE_MINUTES * 60)
           (create_access_token 0 "alice@example.com"
             (some (ACCESS_TOKEN_EXPIRE_MINUTES * 60))))
         200000
         (create_access_token 0 "alice@example.com"
           (some (ACCESS_TOKEN_EXPIRE_MINUTES * 60))) = .error e) :=
  ⟨by decide, by decide, by decide, rfl,
   C3_revoke_then_authenticate_rejects ACCESS_TOKEN_EXPIRE_MINUTES emptyStore 0 17990 200000
     "alice@example.com" "alice@example.com" (by decide) (by decide) (by decide) rfl⟩

end AgenticAI
